import Mathlib

/-!
Verification development for `theano/sandbox/cuda/rng_curand.py`:
CURAND-backed random streams (`CURAND_Base`, `CURAND_Uniform`,
`CURAND_Normal`, `CURAND_RandomStreams`, `local_destructive`).

The Python/C source is shallowly embedded: each Op and method becomes a
Lean function, the generated C code of `CURAND_Base.c_code` becomes an
explicit step function over the input generator value, the size vector
and an oracle `NativeEnv` describing whether the native CURAND calls
succeed.  The function additionally returns the trace of native
generator calls it makes, so that claims of the form "fails before any
native call" are statable.
-/

namespace RngCurand

/-- Element types of numpy/theano arrays, as far as this module looks at
them. -/
inductive Dtype where
  | float32
  | float64
  | int32
  | int64
  | other
deriving DecidableEq, Repr

/-- A theano tensor-like type: an element dtype plus a broadcastable
pattern (one flag per dimension). -/
structure TensorType where
  dtype : Dtype
  broadcastable : List Bool
deriving DecidableEq, Repr

/-- `ndim` of a type is the length of its broadcastable pattern. -/
def TensorType.ndim (t : TensorType) : Nat := t.broadcastable.length

/-- Modelled from the spec: `CudaNdarrayType` (from `theano.sandbox.cuda`,
not under `src/`) — a CUDA array type built from a broadcastable pattern
whose element type is fixed to single-precision float (the spec:
"output element type (currently single-precision float only)"). -/
def CudaNdarrayType (bc : List Bool) : TensorType :=
  { dtype := Dtype.float32, broadcastable := bc }

/-- The two concrete subclasses of `CURAND_Base`, which differ only in
the native draw routine (`_curand_call_str`). -/
inductive DistKind where
  | uniform
  | normal
deriving DecidableEq, Repr

/-- The data of a `CURAND_Base` op (fields set by `__init__`):
distribution kind (the concrete class), output type, seed, destructive
flag. -/
structure CURAND_Base where
  kind : DistKind
  output_type : TensorType
  seed : Int
  destructive : Bool
deriving DecidableEq, Repr

/-- `CURAND_Base.__init__`: stores the fields and asserts
`output_type.dtype == "float32"`.  The assert is modelled by returning
`none` when it fails, so construction with any other dtype is a
construction-time failure. -/
def CURAND_Base.mk? (kind : DistKind) (output_type : TensorType)
    (seed : Int) (destructive : Bool) : Option CURAND_Base :=
  if output_type.dtype = Dtype.float32 then
    some { kind := kind, output_type := output_type, seed := seed,
           destructive := destructive }
  else
    none

/-- `self.destroy_map`: set to `{0: [0]}` by `__init__` iff destructive. -/
def CURAND_Base.destroy_map (op : CURAND_Base) : List (Nat × List Nat) :=
  if op.destructive then [(0, [0])] else []

/-- `CURAND_Base.as_destructive`: `self.__class__(self.output_type,
self.seed, destructive=True)` — same concrete class, same output type,
same seed, destructive flag set. -/
def CURAND_Base.as_destructive (op : CURAND_Base) : CURAND_Base :=
  { op with destructive := true }

/-- `CURAND_Base._config`: the tuple of attributes defining the Op. -/
def CURAND_Base._config (op : CURAND_Base) : Bool × TensorType × Int :=
  (op.destructive, op.output_type, op.seed)

/-- The value held by the generator input/output slots at run time:
either the generic placeholder `False` (not a PyCObject) or a PyCObject
wrapping a native `curandGenerator_t` context, identified here by a
numeric context id. -/
inductive GenValue where
  | pyFalse
  | handle (ctx : Nat)
deriving DecidableEq, Repr

/-- The numpy array passed as the `size` input: its number of
dimensions, its dimensions, its element dtype, and its elements. -/
structure SizeArray where
  nd : Nat
  dims : List Int
  dtype : Dtype
  data : List Int
deriving DecidableEq, Repr

/-- The output sample buffer: only its dimensions matter to the C code's
control flow (the random contents are produced by the opaque native
call). -/
structure Sample where
  dims : List Int
deriving DecidableEq, Repr

/-- The Python exceptions the generated C code can set, one constructor
per `PyErr_SetString`/`PyErr_Format` site (plus the failure of
`CudaNdarray_NewDims`). -/
inductive PyErr where
  | sizeMustBeVector
  | sizeWrongLength (expected : Nat) (got : Int)
  | sizeMustBeInt32
  | sampleAllocFailed
  | failedToInitGenerator
  | failedToSetSeed
  | curandGenerateError
  | nonDestructiveNotImplemented
  | uniformBroadcastMismatch
  | normalBroadcastMismatch
deriving DecidableEq, Repr

/-- The Python exception class of each error site. -/
inductive PyExcClass where
  | valueError
  | runtimeError
  | notImplementedError
  | memoryError
deriving DecidableEq, Repr

/-- Which exception class each error site raises in the source. -/
def PyErr.pyClass : PyErr → PyExcClass
  | .sizeMustBeVector => .valueError
  | .sizeWrongLength _ _ => .valueError
  | .sizeMustBeInt32 => .valueError
  | .sampleAllocFailed => .memoryError
  | .failedToInitGenerator => .runtimeError
  | .failedToSetSeed => .runtimeError
  | .curandGenerateError => .runtimeError
  | .nonDestructiveNotImplemented => .notImplementedError
  | .uniformBroadcastMismatch => .notImplementedError
  | .normalBroadcastMismatch => .notImplementedError

/-- The message string of each error site, as written in the source. -/
def PyErr.msg : PyErr → String
  | .sizeMustBeVector => "size must be vector"
  | .sizeWrongLength _ _ => "size must have length %i (not %i)"
  | .sizeMustBeInt32 => "size must be int32"
  | .sampleAllocFailed => "CudaNdarray_NewDims failed"
  | .failedToInitGenerator => "Failed to initialize curand generator"
  | .failedToSetSeed => "Failed to set curand generator seed"
  | .curandGenerateError => "curand error generating random normals %i"
  | .nonDestructiveNotImplemented => "non-destructive CURAND generation"
  | .uniformBroadcastMismatch =>
      "Increase the size to match the broadcasting pattern of low and high arguments"
  | .normalBroadcastMismatch =>
      "Increase the size to match the broadcasting pattern of low and high arguments"

/-- Calls into the native CURAND library, in the order the generated C
code makes them. -/
inductive NativeCall where
  | createGenerator
  | setSeed (seed : Int)
  | generateUniform (n : Int)
  | generateNormal (n : Int)
deriving DecidableEq, Repr

/-- Oracle describing whether each native/library call succeeds; the C
code only branches on success vs failure of these calls. -/
structure NativeEnv where
  createOk : Bool
  seedOk : Bool
  generateOk : Bool
  allocSampleOk : Bool
deriving DecidableEq, Repr

/-- `n_elements` as computed by the C loop: the product of the requested
dimensions. -/
def n_elements (odims : List Int) : Int := odims.foldl (· * ·) 1

/-- The native generate call issued through `_curand_call_str`:
`curandGenerateUniform(*gen, buf, n)` for `CURAND_Uniform`,
`curandGenerateNormal(*gen, buf, n, 0.0, 1.0)` for `CURAND_Normal`. -/
def curandCall (k : DistKind) (n : Int) : NativeCall :=
  match k with
  | .uniform => NativeCall.generateUniform n
  | .normal => NativeCall.generateNormal n

/-- The tail of the generated C code: issue the draw into the sample
buffer through the output generator's context, failing with a
RuntimeError when the native call fails.  `pre` is the trace of native
calls already made. -/
def generateInto (op : CURAND_Base) (env : NativeEnv)
    (pre : List NativeCall) (g : GenValue) (sample : Sample) :
    List NativeCall × Except PyErr (GenValue × Sample) :=
  let call := curandCall op.kind (n_elements sample.dims)
  if env.generateOk then
    (pre ++ [call], Except.ok (g, sample))
  else
    (pre ++ [call], Except.error PyErr.curandGenerateError)

/-- `CURAND_Base.c_code`, executed: the C code generated for one apply of
the op, run on the input generator value `i_generator`, the `size` array
and the previous contents `o_sample_prev` of the output sample slot.
`nextCtx` is the id the native library would give a freshly created
generator context.  Returns the trace of native CURAND calls made and
either an error or the pair (output generator value, sample). -/
def CURAND_Base.c_code_exec (op : CURAND_Base) (env : NativeEnv)
    (nextCtx : Nat) (i_generator : GenValue) (size : SizeArray)
    (o_sample_prev : Option Sample) :
    List NativeCall × Except PyErr (GenValue × Sample) :=
  let ndim := op.output_type.ndim
  if size.nd ≠ 1 then
    ([], Except.error PyErr.sizeMustBeVector)
  else if size.dims.headD 0 ≠ (ndim : Int) then
    ([], Except.error (PyErr.sizeWrongLength ndim (size.dims.headD 0)))
  else if size.dtype ≠ Dtype.int32 then
    ([], Except.error PyErr.sizeMustBeInt32)
  else
    let odims := size.data.take ndim
    let must_alloc : Bool :=
      match o_sample_prev with
      | none => true
      | some s => s.dims.length ≠ ndim || s.dims ≠ odims
    let sampleRes : Except PyErr Sample :=
      if must_alloc then
        if env.allocSampleOk then Except.ok { dims := odims }
        else Except.error PyErr.sampleAllocFailed
      else
        Except.ok (o_sample_prev.getD { dims := odims })
    match sampleRes with
    | Except.error e => ([], Except.error e)
    | Except.ok sample =>
      match i_generator with
      | GenValue.pyFalse =>
        -- allocate a new generator for o_generator
        if env.createOk then
          if env.seedOk then
            generateInto op env
              [NativeCall.createGenerator, NativeCall.setSeed op.seed]
              (GenValue.handle nextCtx) sample
          else
            ([NativeCall.createGenerator, NativeCall.setSeed op.seed],
             Except.error PyErr.failedToSetSeed)
        else
          ([NativeCall.createGenerator],
           Except.error PyErr.failedToInitGenerator)
      | GenValue.handle c =>
        if op.destructive then
          -- use i_generator for o_generator
          generateInto op env [] (GenValue.handle c) sample
        else
          -- copy i_generator for o_generator: unimplemented
          ([], Except.error PyErr.nonDestructiveNotImplemented)

/-! ### The symbolic layer: `new_auto_update`, `CURAND_RandomStreams` -/

/-- The sample variable returned by `CURAND_Base.new_auto_update`: it
records the op that produced it and the shared generator variable it was
applied to (`sample.generator`).  Its `.update` pair and the new
generator output are determined by these two fields. -/
structure AutoSample where
  op : CURAND_Base
  generator : Nat
deriving DecidableEq, Repr

/-- The symbolic output-generator variable `o_gen` of an apply of `op`
to the shared generator variable `srcGen`. -/
structure GenVar where
  op : CURAND_Base
  srcGen : Nat
deriving DecidableEq, Repr

/-- `sample.update = (generator, o_gen)`: the (old, new) generator
update pair recorded for the owning stream. -/
def AutoSample.update (a : AutoSample) : Nat × GenVar :=
  (a.generator, { op := a.op, srcGen := a.generator })

/-- `CURAND_Base.new_auto_update(generator, ndim, dtype, size, seed)`:
when `ndim is None` it is taken from the length of the size vector;
the op is built with `output_type=CudaNdarrayType((False,)*ndim)`,
the given seed, and `destructive=False`; the `dtype` argument is bound
but never read.  `sizeLen` is `get_vector_length(v_size)`. -/
def new_auto_update (cls : DistKind) (generator : Nat) (ndim : Option Nat)
    (dtype : Dtype) (sizeLen : Nat) (seed : Int) : AutoSample :=
  let nd := ndim.getD sizeLen
  let op : CURAND_Base :=
    { kind := cls,
      output_type := CudaNdarrayType (List.replicate nd false),
      seed := seed,
      destructive := false }
  { op := op, generator := generator }

/-- Modelled from the spec: the broadcastable pattern of an elementwise
binary operation (theano's elemwise machinery, not under `src/`): the
shorter pattern is left-padded with broadcastable (`true`) dimensions,
and a result dimension is broadcastable iff it is broadcastable in both
operands. -/
def elemwiseBroadcast (a b : List Bool) : List Bool :=
  let n := max a.length b.length
  List.zipWith and
    (List.replicate (n - a.length) true ++ a)
    (List.replicate (n - b.length) true ++ b)

/-- Symbolic tensor expressions built by `uniform`/`normal` on top of a
raw draw: the sample variable, literal operands (`low`, `high`, `avg`,
`std`, carrying only their broadcastable pattern), and the elementwise
arithmetic applied to them. -/
inductive Expr where
  | sample (a : AutoSample)
  | lit (bc : List Bool)
  | mul (a b : Expr)
  | add (a b : Expr)
  | sub (a b : Expr)
deriving DecidableEq, Repr

/-- `e.type.broadcastable` for the expressions above. -/
def Expr.broadcastable : Expr → List Bool
  | .sample a => a.op.output_type.broadcastable
  | .lit bc => bc
  | .mul a b => elemwiseBroadcast a.broadcastable b.broadcastable
  | .add a b => elemwiseBroadcast a.broadcastable b.broadcastable
  | .sub a b => elemwiseBroadcast a.broadcastable b.broadcastable

/-- The mutable state of a `CURAND_RandomStreams` instance. -/
structure CURAND_RandomStreams where
  _start_seed : Int
  _cur_seed : Int
  _has_lost_states : Bool
  state_updates : List (Nat × GenVar)
deriving DecidableEq, Repr

/-- `CURAND_RandomStreams.__init__(seed)`. -/
def CURAND_RandomStreams.new (seed : Int) : CURAND_RandomStreams :=
  { _start_seed := seed, _cur_seed := seed, _has_lost_states := false,
    state_updates := [] }

/-- `CURAND_RandomStreams.updates()`: `list(self.state_updates)`. -/
def CURAND_RandomStreams.updates (s : CURAND_RandomStreams) :
    List (Nat × GenVar) :=
  s.state_updates

/-- `CURAND_RandomStreams.next_seed()`: `self._cur_seed += 1; return
self._cur_seed - 1`.  Returns the value and the post-call stream. -/
def CURAND_RandomStreams.next_seed (s : CURAND_RandomStreams) :
    Int × CURAND_RandomStreams :=
  let cur := s._cur_seed + 1
  (cur - 1, { s with _cur_seed := cur })

/-- Iterate `next_seed` n times, collecting the returned seeds in call
order and the final stream state. -/
def nextSeedList : CURAND_RandomStreams → Nat →
    List Int × CURAND_RandomStreams
  | s, 0 => ([], s)
  | s, n + 1 =>
    let r := s.next_seed
    let rest := nextSeedList r.2 n
    (r.1 :: rest.1, rest.2)

/-- `CURAND_RandomStreams.__getstate__`: a copy of `__dict__` with
`state_updates` replaced by `[]` and `_has_lost_states` set to `True`;
a total function (no exception is raised). -/
def CURAND_RandomStreams.__getstate__ (s : CURAND_RandomStreams) :
    CURAND_RandomStreams :=
  { s with state_updates := [], _has_lost_states := true }

/-- `CURAND_RandomStreams.uniform(size, low, high, ndim, dtype)`:
creates a fresh generic shared generator, draws through
`CURAND_Uniform.new_auto_update` with `self.next_seed()`, appends the
update pair, scales the draw as `u * (high - low) + low` and raises
`NotImplementedError` when the scaled result's broadcastable pattern
differs from the draw's.  `sizeLen` is the length of the size vector;
the fresh shared generator is identified by the number of updates made
so far.  Returns the post-call stream and the result or error. -/
def CURAND_RandomStreams.uniform (s : CURAND_RandomStreams)
    (sizeLen : Nat) (low high : Expr) (ndim : Option Nat) (dtype : Dtype) :
    CURAND_RandomStreams × Except PyErr Expr :=
  let generator := s.state_updates.length
  let sd := s.next_seed
  let u := new_auto_update DistKind.uniform generator ndim dtype sizeLen sd.1
  let s2 := { sd.2 with state_updates := sd.2.state_updates ++ [u.update] }
  let rval := Expr.add (Expr.mul (Expr.sample u) (Expr.sub high low)) low
  if (Expr.sample u).broadcastable = rval.broadcastable then
    (s2, Except.ok rval)
  else
    (s2, Except.error PyErr.uniformBroadcastMismatch)

/-- `CURAND_RandomStreams.normal(size, avg, std, ndim, dtype)`: same
structure as `uniform`, with the draw scaled as `u * std + avg`. -/
def CURAND_RandomStreams.normal (s : CURAND_RandomStreams)
    (sizeLen : Nat) (avg std : Expr) (ndim : Option Nat) (dtype : Dtype) :
    CURAND_RandomStreams × Except PyErr Expr :=
  let generator := s.state_updates.length
  let sd := s.next_seed
  let u := new_auto_update DistKind.normal generator ndim dtype sizeLen sd.1
  let s2 := { sd.2 with state_updates := sd.2.state_updates ++ [u.update] }
  let rval := Expr.add (Expr.mul (Expr.sample u) std) avg
  if (Expr.sample u).broadcastable = rval.broadcastable then
    (s2, Except.ok rval)
  else
    (s2, Except.error PyErr.normalBroadcastMismatch)

/-! ### The destructive rewrite pass -/

/-- An op sitting on a graph node: either a `CURAND_Base` instance or
any other op (`isinstance(op, CURAND_Base)` fails on the latter). -/
inductive Op where
  | curand (b : CURAND_Base)
  | other (tag : Nat)
deriving DecidableEq, Repr

/-- A graph node: its op and its input variables. -/
structure Node where
  op : Op
  inputs : List Nat
deriving DecidableEq, Repr

/-- `local_destructive(node)`: when the node's op is a non-destructive
`CURAND_Base`, return the outputs of `op.as_destructive().make_node(*node.inputs)`
— i.e. a replacement node with the destructive op and the same inputs;
otherwise return `False` (no rewrite), modelled as `none`. -/
def local_destructive (n : Node) : Option Node :=
  match n.op with
  | Op.curand b =>
    if b.destructive then none
    else some { n with op := Op.curand b.as_destructive }
  | Op.other _ => none

/-- The registered `CURAND_destructive` pass:
`opt.in2out(local_destructive, ignore_newtrees=True)` — one sweep over
the graph's nodes, replacing each node the local rule fires on and not
revisiting replacement nodes. -/
def CURAND_destructive_pass (g : List Node) : List Node :=
  g.map (fun n => (local_destructive n).getD n)

/-! ### Theorems -/

/-- Characterization of iterating `next_seed`: the returned seeds count
up from the current counter, and the final counter has advanced by `n`. -/
theorem next_seed_eq (s : CURAND_RandomStreams) :
    s.next_seed = (s._cur_seed, { s with _cur_seed := s._cur_seed + 1 }) := by
  unfold CURAND_RandomStreams.next_seed
  simp only [Int.add_sub_cancel]

theorem nextSeedList_eq (n : Nat) (s : CURAND_RandomStreams) :
    (nextSeedList s n).1 = (List.range n).map (fun i : Nat => s._cur_seed + (i : Int)) ∧
    (nextSeedList s n).2 = { s with _cur_seed := s._cur_seed + n } := by
  induction n generalizing s with
  | zero =>
    refine ⟨rfl, ?_⟩
    cases s
    simp [nextSeedList]
  | succ m ih =>
    have h := ih { s with _cur_seed := s._cur_seed + 1 }
    constructor
    · show (nextSeedList s (m + 1)).1 = _
      rw [nextSeedList, next_seed_eq]
      dsimp only
      rw [h.1, List.range_succ_eq_map, List.map_cons, List.map_map]
      congr 1
      · simp
      · refine List.map_congr_left ?_
        intro a _
        simp only [Function.comp_apply]
        push_cast
        ring
    · show (nextSeedList s (m + 1)).2 = _
      rw [nextSeedList, next_seed_eq]
      dsimp only
      rw [h.2]
      congr 1
      push_cast
      ring

/-- C4: for every Stream and every n, a sequence of n calls to
`next_seed()` returns n distinct, strictly increasing integers whose
first element is the configured starting seed, and the internal counter
is post-incremented on each call (each call returns the current counter
and leaves the counter one higher), so each op built by the stream
receives a distinct seed. -/
theorem next_seed_strictly_increasing (s0 : Int) (n : Nat) :
    (nextSeedList (CURAND_RandomStreams.new s0) n).1 =
      (List.range n).map (fun i : Nat => s0 + (i : Int)) ∧
    List.Pairwise (· < ·) (nextSeedList (CURAND_RandomStreams.new s0) n).1 ∧
    (nextSeedList (CURAND_RandomStreams.new s0) n).1.Nodup ∧
    (nextSeedList (CURAND_RandomStreams.new s0) n).1.headD s0 = s0 ∧
    (∀ s : CURAND_RandomStreams,
      s.next_seed = (s._cur_seed, { s with _cur_seed := s._cur_seed + 1 })) := by
  have h := nextSeedList_eq n (CURAND_RandomStreams.new s0)
  have hcur : (CURAND_RandomStreams.new s0)._cur_seed = s0 := rfl
  rw [hcur] at h
  have hpair : List.Pairwise (· < ·)
      ((List.range n).map (fun i : Nat => s0 + (i : Int))) := by
    refine List.Pairwise.map (fun i : Nat => s0 + (i : Int)) ?_
      (List.pairwise_lt_range n)
    intro a b hab
    dsimp only
    omega
  refine ⟨h.1, h.1 ▸ hpair, h.1 ▸ hpair.imp (fun hab => ne_of_lt hab), ?_,
    next_seed_eq⟩
  rw [h.1]
  cases n with
  | zero => rfl
  | succ m => simp [List.range_succ_eq_map]

/-- C6: `__getstate__` empties the recorded update-pair list, sets the
lost-updates flag, and preserves the starting seed and the current seed
counter; it is a total function (no exception is raised). -/
theorem getstate_drops_updates (s : CURAND_RandomStreams) :
    s.__getstate__.state_updates = [] ∧
    s.__getstate__._has_lost_states = true ∧
    s.__getstate__._start_seed = s._start_seed ∧
    s.__getstate__._cur_seed = s._cur_seed :=
  ⟨rfl, rfl, rfl, rfl⟩

/-- C9: every successfully constructed op has float32 output element
type, and construction succeeds iff the requested output type's dtype is
float32 — any other dtype fails the assert at construction time. -/
theorem construction_requires_float32 (k : DistKind) (t : TensorType)
    (seed : Int) (d : Bool) :
    ((CURAND_Base.mk? k t seed d).isSome ↔ t.dtype = Dtype.float32) ∧
    (∀ op, CURAND_Base.mk? k t seed d = some op →
      op.output_type.dtype = Dtype.float32 ∧ op.output_type = t ∧
      op.kind = k ∧ op.seed = seed ∧ op.destructive = d) := by
  unfold CURAND_Base.mk?
  by_cases h : t.dtype = Dtype.float32
  · refine ⟨by simp [h], ?_⟩
    intro op hop
    rw [if_pos h] at hop
    cases hop
    exact ⟨h, rfl, rfl, rfl, rfl⟩
  · refine ⟨by simp [h], ?_⟩
    intro op hop
    rw [if_neg h] at hop
    cases hop

/-- C9 witness: constructing with a float64 output type fails, while the
float32 op carries dtype float32. -/
theorem construction_requires_float32_witness :
    ((CURAND_Base.mk? DistKind.uniform
        { dtype := Dtype.float64, broadcastable := [false] } 42 false).isSome
      ↔ ({ dtype := Dtype.float64, broadcastable := [false] } :
          TensorType).dtype = Dtype.float32) ∧
    ((CURAND_Base.mk? DistKind.uniform (CudaNdarrayType [false]) 42
        false).isSome ↔ (CudaNdarrayType [false]).dtype = Dtype.float32) ∧
    (∀ op, CURAND_Base.mk? DistKind.uniform (CudaNdarrayType [false]) 42
        false = some op → op.output_type.dtype = Dtype.float32) := by
  refine ⟨(construction_requires_float32 DistKind.uniform
      { dtype := Dtype.float64, broadcastable := [false] } 42 false).1,
    (construction_requires_float32 DistKind.uniform
      (CudaNdarrayType [false]) 42 false).1, ?_⟩
  intro op hop
  exact ((construction_requires_float32 DistKind.uniform
      (CudaNdarrayType [false]) 42 false).2 op hop).1

/-- C10: the dtype argument of `new_auto_update`, `uniform` and `normal`
is ignored entirely — results are identical for any two dtype arguments,
no error depends on it, and the constructed op's output type is always
the float32 CUDA array type derived only from the rank. -/
theorem dtype_argument_ignored (cls : DistKind) (gen : Nat)
    (nd : Option Nat) (d1 d2 : Dtype) (sizeLen : Nat) (seed : Int) :
    new_auto_update cls gen nd d1 sizeLen seed =
      new_auto_update cls gen nd d2 sizeLen seed ∧
    (new_auto_update cls gen nd d1 sizeLen seed).op.output_type =
      { dtype := Dtype.float32,
        broadcastable := List.replicate (nd.getD sizeLen) false } ∧
    (∀ (s : CURAND_RandomStreams) (low high : Expr),
      s.uniform sizeLen low high nd d1 = s.uniform sizeLen low high nd d2) ∧
    (∀ (s : CURAND_RandomStreams) (avg std : Expr),
      s.normal sizeLen avg std nd d1 = s.normal sizeLen avg std nd d2) :=
  ⟨rfl, rfl, fun _ _ _ => rfl, fun _ _ _ => rfl⟩

/-- The rewrite step of the pass, applied to one node. -/
def destructiveStep (n : Node) : Node :=
  (local_destructive n).getD n

/-- The per-node rewrite is idempotent: a node produced by the step is
left unchanged by the step (the local rule does not fire on
destructive ops, nor on non-CURAND ops). -/
theorem destructiveStep_idem (n : Node) :
    destructiveStep (destructiveStep n) = destructiveStep n := by
  cases n with
  | mk op inputs =>
    cases op with
    | curand b =>
      cases hb : b.destructive <;>
        simp [destructiveStep, local_destructive, CURAND_Base.as_destructive,
          hb]
    | other t => simp [destructiveStep, local_destructive]

/-- C5: `local_destructive` replaces every node whose op is a
non-destructive `CURAND_Base` by the destructive variant of the same
concrete class with the same output type and seed, applied to the same
inputs; it does not fire on a node whose op is already destructive; and
the registered pass is idempotent. -/
theorem local_destructive_rewrite_idempotent (g : List Node) :
    (∀ (n : Node) (b : CURAND_Base), n.op = Op.curand b →
      b.destructive = false →
      local_destructive n = some
        { op := Op.curand
            { kind := b.kind, output_type := b.output_type, seed := b.seed,
              destructive := true },
          inputs := n.inputs }) ∧
    (∀ (n : Node) (b : CURAND_Base), n.op = Op.curand b →
      b.destructive = true → local_destructive n = none) ∧
    (∀ b : CURAND_Base, b.as_destructive =
      { kind := b.kind, output_type := b.output_type, seed := b.seed,
        destructive := true }) ∧
    CURAND_destructive_pass (CURAND_destructive_pass g) =
      CURAND_destructive_pass g := by
  refine ⟨?_, ?_, ?_, ?_⟩
  · intro n b hop hb
    cases n with
    | mk op inputs =>
      cases hop
      simp [local_destructive, hb, CURAND_Base.as_destructive]
  · intro n b hop hb
    cases n with
    | mk op inputs =>
      cases hop
      simp [local_destructive, hb]
  · intro b
    rfl
  · show ((g.map destructiveStep).map destructiveStep) = g.map destructiveStep
    rw [List.map_map]
    exact List.map_congr_left (fun n _ => destructiveStep_idem n)

/-- Helper: once the size vector has passed validation and the sample
buffer is available (the library allocation succeeds), `c_code_exec`
reduces to the three-way generator dispatch of the generated C code,
for some sample buffer. -/
theorem c_code_exec_dispatch (op : CURAND_Base) (env : NativeEnv)
    (nextCtx : Nat) (g : GenValue) (size : SizeArray) (prev : Option Sample)
    (h1 : size.nd = 1)
    (h2 : size.dims.headD 0 = (op.output_type.ndim : Int))
    (h3 : size.dtype = Dtype.int32)
    (halloc : env.allocSampleOk = true) :
    ∃ sample : Sample,
      op.c_code_exec env nextCtx g size prev =
        match g with
        | GenValue.pyFalse =>
          if env.createOk then
            if env.seedOk then
              generateInto op env
                [NativeCall.createGenerator, NativeCall.setSeed op.seed]
                (GenValue.handle nextCtx) sample
            else
              ([NativeCall.createGenerator, NativeCall.setSeed op.seed],
               Except.error PyErr.failedToSetSeed)
          else
            ([NativeCall.createGenerator],
             Except.error PyErr.failedToInitGenerator)
        | GenValue.handle c =>
          if op.destructive then
            generateInto op env [] (GenValue.handle c) sample
          else
            ([], Except.error PyErr.nonDestructiveNotImplemented) := by
  rcases prev with _ | s
  · refine ⟨{ dims := size.data.take op.output_type.ndim }, ?_⟩
    simp only [CURAND_Base.c_code_exec]
    rw [if_neg (fun hh => hh h1), if_neg (fun hh => hh h2),
      if_neg (fun hh => hh h3)]
    simp [halloc]
  · by_cases hl : s.dims.length = op.output_type.ndim
    · by_cases hd : s.dims = size.data.take op.output_type.ndim
      · refine ⟨s, ?_⟩
        have hle : ¬ size.data.length < op.output_type.ndim := by
          rw [hd, List.length_take] at hl
          omega
        simp only [CURAND_Base.c_code_exec]
        rw [if_neg (fun hh => hh h1), if_neg (fun hh => hh h2),
          if_neg (fun hh => hh h3)]
        simp [hl, hd, hle]
      · refine ⟨{ dims := size.data.take op.output_type.ndim }, ?_⟩
        simp only [CURAND_Base.c_code_exec]
        rw [if_neg (fun hh => hh h1), if_neg (fun hh => hh h2),
          if_neg (fun hh => hh h3)]
        simp [hl, hd, halloc]
    · refine ⟨{ dims := size.data.take op.output_type.ndim }, ?_⟩
      simp only [CURAND_Base.c_code_exec]
      rw [if_neg (fun hh => hh h1), if_neg (fun hh => hh h2),
        if_neg (fun hh => hh h3)]
      simp [hl, halloc]

/-- C7: when the size argument is not rank 1, or its length differs from
the op's declared output rank, or its element type is not int32, the
generated code fails with a ValueError, and the trace of native
generator calls is empty — no context is created, seeded, or drawn
from. -/
theorem shape_validation_before_native (op : CURAND_Base) (env : NativeEnv)
    (nextCtx : Nat) (g : GenValue) (size : SizeArray) (prev : Option Sample)
    (h : size.nd ≠ 1 ∨ size.dims.headD 0 ≠ (op.output_type.ndim : Int) ∨
      size.dtype ≠ Dtype.int32) :
    (op.c_code_exec env nextCtx g size prev).1 = [] ∧
    ∃ e, (op.c_code_exec env nextCtx g size prev).2 = Except.error e ∧
      e.pyClass = PyExcClass.valueError := by
  rcases Decidable.em (size.nd = 1) with h1 | h1
  · rcases Decidable.em (size.dims.headD 0 = (op.output_type.ndim : Int))
      with h2 | h2
    · rcases Decidable.em (size.dtype = Dtype.int32) with h3 | h3
      · rcases h with hh | hh | hh
        · exact absurd h1 hh
        · exact absurd h2 hh
        · exact absurd h3 hh
      · simp only [CURAND_Base.c_code_exec]
        rw [if_neg (fun hh => hh h1), if_neg (fun hh => hh h2), if_pos h3]
        exact ⟨rfl, PyErr.sizeMustBeInt32, rfl, rfl⟩
    · simp only [CURAND_Base.c_code_exec]
      rw [if_neg (fun hh => hh h1), if_pos h2]
      exact ⟨rfl, PyErr.sizeWrongLength op.output_type.ndim
        (size.dims.headD 0), rfl, rfl⟩
  · simp only [CURAND_Base.c_code_exec]
    rw [if_pos h1]
    exact ⟨rfl, PyErr.sizeMustBeVector, rfl, rfl⟩

/-- C1: with a valid size vector and an already-allocated (PyCObject)
generator input, a non-destructive op fails with NotImplementedError
("non-destructive CURAND generation" — the spec's UnsupportedError for
non-destructive reuse of a live generator), makes no native call, and
produces no output handle or sample. -/
theorem nondestructive_reuse_fails (op : CURAND_Base) (env : NativeEnv)
    (nextCtx c : Nat) (size : SizeArray) (prev : Option Sample)
    (hdest : op.destructive = false)
    (h1 : size.nd = 1)
    (h2 : size.dims.headD 0 = (op.output_type.ndim : Int))
    (h3 : size.dtype = Dtype.int32)
    (halloc : env.allocSampleOk = true) :
    op.c_code_exec env nextCtx (GenValue.handle c) size prev =
      ([], Except.error PyErr.nonDestructiveNotImplemented) ∧
    PyErr.nonDestructiveNotImplemented.pyClass =
      PyExcClass.notImplementedError ∧
    PyErr.nonDestructiveNotImplemented.msg =
      "non-destructive CURAND generation" := by
  obtain ⟨sample, hdisp⟩ := c_code_exec_dispatch op env nextCtx
    (GenValue.handle c) size prev h1 h2 h3 halloc
  refine ⟨?_, rfl, rfl⟩
  rw [hdisp]
  simp [hdest]

/-- C2: with a valid size vector and an already-allocated generator
input, a destructive op returns the input handle itself as the output
handle (same native context), creates no new context (the trace holds no
create call), and draws the sample through that context. -/
theorem destructive_reuse_identity (op : CURAND_Base) (env : NativeEnv)
    (nextCtx c : Nat) (size : SizeArray) (prev : Option Sample)
    (hdest : op.destructive = true)
    (h1 : size.nd = 1)
    (h2 : size.dims.headD 0 = (op.output_type.ndim : Int))
    (h3 : size.dtype = Dtype.int32)
    (halloc : env.allocSampleOk = true)
    (hgen : env.generateOk = true) :
    ∃ sample : Sample,
      op.c_code_exec env nextCtx (GenValue.handle c) size prev =
        ([curandCall op.kind (n_elements sample.dims)],
         Except.ok (GenValue.handle c, sample)) ∧
      ∀ t ∈ (op.c_code_exec env nextCtx (GenValue.handle c) size prev).1,
        t ≠ NativeCall.createGenerator := by
  obtain ⟨sample, hdisp⟩ := c_code_exec_dispatch op env nextCtx
    (GenValue.handle c) size prev h1 h2 h3 halloc
  refine ⟨sample, ?_, ?_⟩
  · rw [hdisp]
    simp [hdest, generateInto, hgen]
  · rw [hdisp]
    simp only [hdest, if_true, generateInto, hgen]
    intro t ht
    simp at ht
    rw [ht]
    cases op.kind <;> simp [curandCall]

/-- C3: applied to the generic/unallocated placeholder, the op (whether
destructive or not) allocates exactly one fresh native generator
context, seeds it with the op's construction-time seed, and returns the
newly allocated handle; if native creation or seeding fails it fails
with a RuntimeError (the spec's ResourceError). -/
theorem unallocated_input_allocates (op : CURAND_Base) (env : NativeEnv)
    (nextCtx : Nat) (size : SizeArray) (prev : Option Sample)
    (h1 : size.nd = 1)
    (h2 : size.dims.headD 0 = (op.output_type.ndim : Int))
    (h3 : size.dtype = Dtype.int32)
    (halloc : env.allocSampleOk = true) :
    (env.createOk = true → env.seedOk = true → env.generateOk = true →
      ∃ sample : Sample,
        op.c_code_exec env nextCtx GenValue.pyFalse size prev =
          ([NativeCall.createGenerator, NativeCall.setSeed op.seed,
            curandCall op.kind (n_elements sample.dims)],
           Except.ok (GenValue.handle nextCtx, sample)) ∧
        (op.c_code_exec env nextCtx GenValue.pyFalse size prev).1.count
          NativeCall.createGenerator = 1) ∧
    (env.createOk = false →
      op.c_code_exec env nextCtx GenValue.pyFalse size prev =
        ([NativeCall.createGenerator],
         Except.error PyErr.failedToInitGenerator)) ∧
    (env.createOk = true → env.seedOk = false →
      op.c_code_exec env nextCtx GenValue.pyFalse size prev =
        ([NativeCall.createGenerator, NativeCall.setSeed op.seed],
         Except.error PyErr.failedToSetSeed)) ∧
    PyErr.failedToInitGenerator.pyClass = PyExcClass.runtimeError ∧
    PyErr.failedToSetSeed.pyClass = PyExcClass.runtimeError := by
  obtain ⟨sample, hdisp⟩ := c_code_exec_dispatch op env nextCtx
    GenValue.pyFalse size prev h1 h2 h3 halloc
  refine ⟨?_, ?_, ?_, rfl, rfl⟩
  · intro hc hs hg
    refine ⟨sample, ?_, ?_⟩
    · rw [hdisp]
      simp [hc, hs, generateInto, hg]
    · rw [hdisp]
      simp only [hc, hs, if_true, generateInto, hg]
      cases op.kind <;> simp [curandCall, List.count_cons]
  · intro hc
    rw [hdisp]
    simp [hc]
  · intro hc hs
    rw [hdisp]
    simp [hc, hs]

/-- The draw built inside `uniform`: the fresh generic shared generator
is identified by the current number of recorded updates, and the seed is
the stream's current counter (the value `next_seed()` returns there). -/
def uniformDraw (s : CURAND_RandomStreams) (sizeLen : Nat) (nd : Option Nat)
    (dt : Dtype) : AutoSample :=
  new_auto_update DistKind.uniform s.state_updates.length nd dt sizeLen
    s._cur_seed

/-- The draw built inside `normal` (see `uniformDraw`). -/
def normalDraw (s : CURAND_RandomStreams) (sizeLen : Nat) (nd : Option Nat)
    (dt : Dtype) : AutoSample :=
  new_auto_update DistKind.normal s.state_updates.length nd dt sizeLen
    s._cur_seed

/-- The scaled uniform result `u * (high - low) + low`. -/
def uniformScaled (u : AutoSample) (low high : Expr) : Expr :=
  Expr.add (Expr.mul (Expr.sample u) (Expr.sub high low)) low

/-- The scaled normal result `u * std + avg`. -/
def normalScaled (u : AutoSample) (avg std : Expr) : Expr :=
  Expr.add (Expr.mul (Expr.sample u) std) avg

/-- C8: `uniform` returns the raw draw scaled as `u * (high - low) + low`
and `normal` returns `u * std + avg`; when the scaled result's
broadcastable pattern differs from the raw draw's, the call fails with
NotImplementedError (the spec's BroadcastError), and in either case the
update pair has already been recorded (and the seed counter advanced)
before the check. -/
theorem uniform_normal_scaling (s : CURAND_RandomStreams) (sizeLen : Nat)
    (low high avg std : Expr) (nd : Option Nat) (dt : Dtype) :
    (s.uniform sizeLen low high nd dt).1.state_updates =
      s.state_updates ++ [(uniformDraw s sizeLen nd dt).update] ∧
    (s.uniform sizeLen low high nd dt).1._cur_seed = s._cur_seed + 1 ∧
    (s.uniform sizeLen low high nd dt).2 =
      (if (Expr.sample (uniformDraw s sizeLen nd dt)).broadcastable =
          (uniformScaled (uniformDraw s sizeLen nd dt) low high).broadcastable
        then Except.ok (uniformScaled (uniformDraw s sizeLen nd dt) low high)
        else Except.error PyErr.uniformBroadcastMismatch) ∧
    PyErr.uniformBroadcastMismatch.pyClass = PyExcClass.notImplementedError ∧
    (s.normal sizeLen avg std nd dt).1.state_updates =
      s.state_updates ++ [(normalDraw s sizeLen nd dt).update] ∧
    (s.normal sizeLen avg std nd dt).1._cur_seed = s._cur_seed + 1 ∧
    (s.normal sizeLen avg std nd dt).2 =
      (if (Expr.sample (normalDraw s sizeLen nd dt)).broadcastable =
          (normalScaled (normalDraw s sizeLen nd dt) avg std).broadcastable
        then Except.ok (normalScaled (normalDraw s sizeLen nd dt) avg std)
        else Except.error PyErr.normalBroadcastMismatch) ∧
    PyErr.normalBroadcastMismatch.pyClass = PyExcClass.notImplementedError := by
  simp only [CURAND_RandomStreams.uniform, CURAND_RandomStreams.normal,
    next_seed_eq, uniformDraw, normalDraw, uniformScaled, normalScaled]
  refine ⟨?_, ?_, ?_, rfl, ?_, ?_, ?_, rfl⟩ <;> (split <;> rfl)

/-! ### Concrete fixtures for the witnesses -/

/-- A non-destructive uniform op with output rank 1 and seed 42. -/
def opUniformND : CURAND_Base :=
  { kind := DistKind.uniform, output_type := CudaNdarrayType [false],
    seed := 42, destructive := false }

/-- A destructive normal op with output rank 2 and seed 7. -/
def opNormalD : CURAND_Base :=
  { kind := DistKind.normal, output_type := CudaNdarrayType [false, false],
    seed := 7, destructive := true }

/-- All native calls succeed. -/
def envAllOk : NativeEnv :=
  { createOk := true, seedOk := true, generateOk := true,
    allocSampleOk := true }

/-- `curandCreateGenerator` fails. -/
def envNoCreate : NativeEnv :=
  { createOk := false, seedOk := true, generateOk := true,
    allocSampleOk := true }

/-- A valid rank-1 int32 size vector of length 1 requesting shape (3,). -/
def sizeVec3 : SizeArray :=
  { nd := 1, dims := [1], dtype := Dtype.int32, data := [3] }

/-- A valid rank-1 int32 size vector of length 2 requesting shape (2,3). -/
def sizeVec23 : SizeArray :=
  { nd := 1, dims := [2], dtype := Dtype.int32, data := [2, 3] }

/-- A rank-2 size argument: not a vector. -/
def sizeRank2 : SizeArray :=
  { nd := 2, dims := [2, 2], dtype := Dtype.int32, data := [2, 2] }

/-- C1 witness: the non-destructive uniform op, applied to the live
handle 9 with the valid size vector (3,), fails without output. -/
theorem nondestructive_reuse_fails_witness :
    opUniformND.c_code_exec envAllOk 5 (GenValue.handle 9) sizeVec3 none =
      ([], Except.error PyErr.nonDestructiveNotImplemented) ∧
    PyErr.nonDestructiveNotImplemented.pyClass =
      PyExcClass.notImplementedError ∧
    PyErr.nonDestructiveNotImplemented.msg =
      "non-destructive CURAND generation" :=
  nondestructive_reuse_fails opUniformND envAllOk 5 9 sizeVec3 none
    (by decide) (by decide) (by decide) (by decide) (by decide)

/-- C2 witness: the destructive normal op, applied to the live handle 9
with the valid size vector (2,3), hands the input handle through. -/
theorem destructive_reuse_identity_witness :
    ∃ sample : Sample,
      opNormalD.c_code_exec envAllOk 5 (GenValue.handle 9) sizeVec23 none =
        ([curandCall opNormalD.kind (n_elements sample.dims)],
         Except.ok (GenValue.handle 9, sample)) ∧
      ∀ t ∈ (opNormalD.c_code_exec envAllOk 5 (GenValue.handle 9) sizeVec23
          none).1, t ≠ NativeCall.createGenerator :=
  destructive_reuse_identity opNormalD envAllOk 5 9 sizeVec23 none
    (by decide) (by decide) (by decide) (by decide) (by decide) (by decide)

/-- C3 witness: from the unallocated placeholder, one fresh context is
created and seeded with 42; with creation failing, a RuntimeError. -/
theorem unallocated_input_allocates_witness :
    (∃ sample : Sample,
      opUniformND.c_code_exec envAllOk 5 GenValue.pyFalse sizeVec3 none =
        ([NativeCall.createGenerator, NativeCall.setSeed opUniformND.seed,
          curandCall opUniformND.kind (n_elements sample.dims)],
         Except.ok (GenValue.handle 5, sample)) ∧
      (opUniformND.c_code_exec envAllOk 5 GenValue.pyFalse sizeVec3
          none).1.count NativeCall.createGenerator = 1) ∧
    opUniformND.c_code_exec envNoCreate 5 GenValue.pyFalse sizeVec3 none =
      ([NativeCall.createGenerator],
       Except.error PyErr.failedToInitGenerator) :=
  ⟨(unallocated_input_allocates opUniformND envAllOk 5 sizeVec3 none
      (by decide) (by decide) (by decide) (by decide)).1 rfl rfl rfl,
   (unallocated_input_allocates opUniformND envNoCreate 5 sizeVec3 none
      (by decide) (by decide) (by decide) (by decide)).2.1 rfl⟩

/-- A graph node applying the non-destructive uniform op. -/
def nodeU : Node :=
  { op := Op.curand opUniformND, inputs := [0, 1] }

/-- C5 witness: the local rule rewrites the non-destructive node to its
destructive variant with the same inputs, and the pass is idempotent on
the one-node graph. -/
theorem local_destructive_rewrite_idempotent_witness :
    local_destructive nodeU = some
      { op := Op.curand
          { kind := opUniformND.kind,
            output_type := opUniformND.output_type,
            seed := opUniformND.seed, destructive := true },
        inputs := nodeU.inputs } ∧
    CURAND_destructive_pass (CURAND_destructive_pass [nodeU]) =
      CURAND_destructive_pass [nodeU] :=
  ⟨(local_destructive_rewrite_idempotent [nodeU]).1 nodeU opUniformND rfl rfl,
   (local_destructive_rewrite_idempotent [nodeU]).2.2.2⟩

/-- C7 witness: a rank-2 size argument for the rank-1 op fails with a
ValueError before any native generator call. -/
theorem shape_validation_before_native_witness :
    (opUniformND.c_code_exec envAllOk 5 GenValue.pyFalse sizeRank2 none).1 =
      [] ∧
    ∃ e, (opUniformND.c_code_exec envAllOk 5 GenValue.pyFalse sizeRank2
        none).2 = Except.error e ∧ e.pyClass = PyExcClass.valueError :=
  shape_validation_before_native opUniformND envAllOk 5 GenValue.pyFalse
    sizeRank2 none (Or.inl (by decide))

end RngCurand
